import Mathlib

/-!
# Verification of the sentiment-vision hybrid scoring and tagging core

Shallow embedding of `src/analyzer.py`, `src/ai_scorer.py` and `src/tagger.py`.

Conventions of the embedding:
* Python `float` values are modelled as exact rationals (`Rat`).
* Python `dict`-shaped configuration is modelled as structures of `Option`
  fields; `dict.get(k, d)` becomes `Option.getD`.
* External collaborators (the VADER lexicon analyzer, `json.loads`,
  `float(str)` and the Anthropic API) are black boxes and appear as explicit
  function parameters / an explicit `CallWorld` oracle.
* Python exceptions that escape a function are modelled with `Except Unit`;
  code whose exceptions are all caught internally keeps an `Option` result.
-/

namespace SentimentVision

/-! ## Python string primitives used by the source -/

/-- Python `\s` / `str.strip()` whitespace (ASCII part, which is what the
    repository's inputs use). -/
def isPyWs (c : Char) : Bool :=
  c = ' ' ∨ c = '\t' ∨ c = '\n' ∨ c = '\r' ∨ c = '\x0b' ∨ c = '\x0c'

/-- Python `[A-Z]` (ASCII uppercase). -/
def isAsciiUpper (c : Char) : Bool := 'A' ≤ c ∧ c ≤ 'Z'

/-- Embeds `text.strip()`. -/
def pyStrip (s : String) : String :=
  String.mk (((s.toList.dropWhile isPyWs).reverse.dropWhile isPyWs).reverse)

/-- Embeds `text.rstrip()`. -/
def pyRstrip (s : String) : String :=
  String.mk ((s.toList.reverse.dropWhile isPyWs).reverse)

/-- Embeds `text.lstrip()` (used for the regex `\s*` after a code fence). -/
def pyLstrip (s : String) : String :=
  String.mk (s.toList.dropWhile isPyWs)

/-- Embeds `buffer.rstrip(".")`. -/
def rstripDots (s : String) : String :=
  String.mk ((s.toList.reverse.dropWhile (· = '.')).reverse)

/-- Embeds `s.rsplit(None, 1)[-1]`: the last whitespace-separated token.
    Returns `none` when the string has no token at all, in which case the
    Python indexing `[-1]` raises `IndexError`. -/
def pyLastToken (s : String) : Option String :=
  let l := s.toList.reverse.dropWhile isPyWs
  let tok := l.takeWhile (fun c => ¬ isPyWs c)
  if tok.isEmpty then none else some (String.mk tok.reverse)

/-- ASCII `str.lower()` on a character. -/
def pyCharLower (c : Char) : Char :=
  if 'A' ≤ c ∧ c ≤ 'Z' then Char.ofNat (c.toNat + 32) else c

/-- Embeds `str.lower()` (ASCII; the repository's catalogs and labels are ASCII). -/
def pyLower (s : String) : String := String.mk (s.toList.map pyCharLower)

/-- Embeds `s.startswith(pre)`. -/
def strStartsWith (s pre : String) : Bool := pre.toList.isPrefixOf s.toList

/-- Embeds `s.endswith(suf)`. -/
def strEndsWith (s suf : String) : Bool :=
  suf.toList.reverse.isPrefixOf s.toList.reverse

/-- Embeds `s[n:]` (drop the first `n` characters). -/
def strDrop (s : String) (n : Nat) : String := String.mk (s.toList.drop n)

/-- Embeds `s[:-n]` (drop the last `n` characters). -/
def strDropRight (s : String) (n : Nat) : String :=
  String.mk ((s.toList.reverse.drop n).reverse)

/-- Python `a or b` on an optional string `a` (both `None` and `""` are falsy). -/
def pyOrOpt (a : Option String) (b : String) : String :=
  match a with
  | some s => if s = "" then b else s
  | none => b

/-- Embeds `text.split()`: split on whitespace runs, dropping empty pieces. -/
def pySplitWsAux : List Char → List Char → List String
  | [], cur => if cur.isEmpty then [] else [String.mk cur.reverse]
  | c :: rest, cur =>
    if isPyWs c then
      if cur.isEmpty then pySplitWsAux rest []
      else String.mk cur.reverse :: pySplitWsAux rest []
    else pySplitWsAux rest (c :: cur)

def pySplitWs (s : String) : List String := pySplitWsAux s.toList []

instance exceptDecEq {ε α : Type} [DecidableEq ε] [DecidableEq α] :
    DecidableEq (Except ε α)
  | .ok a, .ok b =>
    if h : a = b then isTrue (by rw [h])
    else isFalse (fun he => by cases he; exact h rfl)
  | .error a, .error b =>
    if h : a = b then isTrue (by rw [h])
    else isFalse (fun he => by cases he; exact h rfl)
  | .ok _, .error _ => isFalse (fun he => by cases he)
  | .error _, .ok _ => isFalse (fun he => by cases he)

/-! ## Configuration (`settings` dict, §3 `ScoringSettings`) -/

structure AiScoringCfg where
  enabled : Option Bool
  monthly_budget_usd : Option Rat
  max_words : Option Nat
  model : Option String
  max_tokens : Option Nat
  temperature : Option Rat
  deriving DecidableEq

structure SentimentCfg where
  positive_threshold : Option Rat
  negative_threshold : Option Rat
  ai_scoring : Option AiScoringCfg
  batch_size : Option Nat
  deriving DecidableEq

structure Settings where
  sentiment : Option SentimentCfg
  deriving DecidableEq

/-- Embeds `settings.get("sentiment", {})`. -/
def sentimentCfg (s : Settings) : SentimentCfg :=
  s.sentiment.getD ⟨none, none, none, none⟩

/-- Embeds `settings.get("sentiment", {}).get("ai_scoring", {})`. -/
def aiCfg (s : Settings) : AiScoringCfg :=
  (sentimentCfg s).ai_scoring.getD ⟨none, none, none, none, none, none⟩

/-- Embeds `.get("positive_threshold", 0.2)`. -/
def posThreshold (s : Settings) : Rat :=
  (sentimentCfg s).positive_threshold.getD 0.2

/-- Embeds `.get("negative_threshold", -0.2)`. -/
def negThreshold (s : Settings) : Rat :=
  (sentimentCfg s).negative_threshold.getD (-0.2)

/-- Truthiness of `ai_cfg.get("enabled")` (a missing key is falsy). -/
def aiEnabled (s : Settings) : Bool :=
  (aiCfg s).enabled.getD false

/-- Embeds `daily_budget = ai_cfg.get("monthly_budget_usd", 3.0) / 30`
    (ai_scorer.py lines 105-106). -/
def dailyBudget (s : Settings) : Rat :=
  ((aiCfg s).monthly_budget_usd.getD 3) / 30

/-! ## `score_label` (analyzer.py lines 112-122) -/

def score_label (score : Rat) (settings : Settings) : String :=
  if posThreshold settings ≤ score then "positive"
  else if score < negThreshold settings then "negative"
  else "neutral"

/-! ## `_split_sentences` (analyzer.py lines 40-69) -/

/-- The abbreviation set of analyzer.py lines 25-29. -/
def _ABBREVS : List String :=
  ["mr", "mrs", "ms", "dr", "jr", "sr", "prof", "vs", "etc",
   "inc", "ltd", "corp", "co", "gen", "gov", "sgt", "col",
   "dept", "univ", "approx", "est", "vol", "no", "st", "ave"]

def headIsUpper : List Char → Bool
  | [] => false
  | c :: _ => isAsciiUpper c

/-- Embeds `re.split(r"(?<=[.!?])\s+(?=[A-Z])", text)`: split at every maximal
whitespace run that is preceded by `.`/`!`/`?` and followed by an ASCII
uppercase letter; the punctuation stays with the left part and the
whitespace run is consumed.  The `fuel` argument only serves structural
recursion: every step consumes at least one character, so any
`fuel > length of the input` computes the split exactly. -/
def regexSplitAux : Nat → List Char → List Char → List (List Char)
  | 0, l, acc => [acc.reverse ++ l]
  | _ + 1, [], acc => [acc.reverse]
  | fuel + 1, c :: rest, acc =>
    if c = '.' ∨ c = '!' ∨ c = '?' then
      let ws := rest.takeWhile isPyWs
      let rest1 := rest.drop ws.length
      if ¬ ws.isEmpty ∧ headIsUpper rest1 then
        (c :: acc).reverse :: regexSplitAux fuel rest1 []
      else regexSplitAux fuel rest (c :: acc)
    else regexSplitAux fuel rest (c :: acc)

def pyRegexSplit (text : String) : List String :=
  (regexSplitAux (text.length + 1) text.toList []).map String.mk

/-- Line 60 of analyzer.py:
`buffer.rstrip(".").rsplit(None, 1)[-1].lower() if buffer.rstrip(".") else ""`.
When the buffer minus trailing periods is non-empty but contains no
whitespace-separated token (it is all whitespace), the `[-1]` indexing
raises `IndexError`; that is the `.error` case. -/
def lastWordOf (buffer : String) : Except Unit String :=
  let r := rstripDots buffer
  if r = "" then .ok ""
  else
    match pyLastToken r with
    | none => .error ()
    | some w => .ok (pyLower w)

/-- The abbreviation-rejoining loop of analyzer.py lines 50-69. -/
def splitLoop : List String → String → List String → Except Unit (List String)
  | [], buffer, sentences =>
    let sentences := if buffer ≠ "" then sentences ++ [pyStrip buffer] else sentences
    .ok (sentences.filter (fun s => s ≠ ""))
  | part :: parts, buffer, sentences =>
    let buffer := if buffer ≠ "" then buffer ++ " " ++ part else part
    match lastWordOf buffer with
    | .error e => .error e
    | .ok last_word =>
      if strEndsWith (pyRstrip buffer) "." ∧ _ABBREVS.contains last_word then
        splitLoop parts buffer sentences
      else splitLoop parts "" (sentences ++ [pyStrip buffer])

def _split_sentences (text : String) : Except Unit (List String) :=
  splitLoop (pyRegexSplit text) "" []

/-! ## `score_text` (analyzer.py lines 72-109) -/

/-- Sum of a list of rationals (for the arithmetic means in `score_text`). -/
def ratSum : List Rat → Rat
  | [] => 0
  | q :: rest => q + ratSum rest

/-- Embeds `score_text`, parametrized by the VADER compound-polarity oracle
`vader : String → Rat` (an external lexicon collaborator). -/
def score_text (vader : String → Rat) (text : String) : Except Unit Rat :=
  if text.length ≤ 280 then .ok (vader text)
  else
    match _split_sentences text with
    | .error e => .error e
    | .ok sentences =>
      if sentences.isEmpty then .ok (vader text)
      else
        let scores := (sentences.filter (fun s => ¬ s.length < 10)).map vader
        if scores.isEmpty then .ok 0
        else
          let significant := scores.filter (fun q => 0.05 < |q|)
          if ¬ significant.isEmpty then
            .ok (ratSum significant / significant.length)
          else .ok (ratSum scores / scores.length)

/-! ## Data model for articles and clients (§3) -/

/-- An article row as consumed by the scoring core: `content_text` and
`title` are nullable database columns (`none` = SQL NULL / missing key). -/
structure Article where
  id : Nat
  title : Option String
  content_text : Option String
  deriving DecidableEq

/-- Embeds `article_row.get("content_text") or article_row.get("title") or ""`
(analyzer.py line 136 and ai_scorer.py line 114). -/
def articleText (a : Article) : String :=
  pyOrOpt a.content_text (pyOrOpt a.title "")

/-- The client-context dict built by `analyze_unscored`; both fields are
read with `.get` defaults inside `score_with_ai`. -/
structure ClientContext where
  name : Option String
  industries : Option (List String)
  deriving DecidableEq

/-- Embeds `round(x, 4)`: Python's banker's rounding to four decimal places,
computed exactly on rationals: scale by `10000`, round to the nearest
integer (ties to the even integer), scale back. -/
def round4 (q : Rat) : Rat :=
  if q * 10000 - ⌊q * 10000⌋ < 1/2 then (⌊q * 10000⌋ : Rat) / 10000
  else if (1 : Rat)/2 < q * 10000 - ⌊q * 10000⌋ then (⌊q * 10000⌋ + 1 : Rat) / 10000
  else if ⌊q * 10000⌋ % 2 = 0 then (⌊q * 10000⌋ : Rat) / 10000
  else (⌊q * 10000⌋ + 1 : Rat) / 10000

/-! ## `ai_scorer.py` -/

/-- Mutable module-level state of ai_scorer.py (lines 17-21): the lazily
created client singleton, the session-fatal disable flag and the session
cost ledger. -/
structure SessionState where
  ai_disabled : Bool
  client_inited : Bool
  session_ai_calls : Nat
  session_estimated_cost : Rat
  deriving DecidableEq

/-- A JSON value, for modelling `json.loads` results. -/
inductive Json where
  | null : Json
  | bool (b : Bool) : Json
  | num (q : Rat) : Json
  | str (s : String) : Json
  | arr (elems : List Json) : Json
  | obj (fields : List (String × Json)) : Json

/-- Outcome of one `client.messages.create(...)` call, as observed through
the `except` clauses of ai_scorer.py lines 171-189. -/
inductive ApiResult where
  | ok (input_tokens output_tokens : Nat) (response_text : String) : ApiResult
  | authError : ApiResult
  | rateLimitError : ApiResult
  | connectionError : ApiResult
  | otherError : ApiResult
  deriving DecidableEq

/-- The external world one `score_with_ai` call sees: whether
`import anthropic` succeeds, whether `ANTHROPIC_API_KEY` is set and
non-empty in the environment, and the provider's response as a function of
the user message sent. -/
structure CallWorld where
  importOk : Bool
  apiKeyPresent : Bool
  api : String → ApiResult

/-- Embeds `_truncate_for_api` (ai_scorer.py lines 52-57). -/
def _truncate_for_api (text : String) (max_words : Nat) : String :=
  let words := pySplitWs text
  if words.length ≤ max_words then text
  else String.intercalate " " (words.take max_words) ++ "..."

/-- The user message of ai_scorer.py lines 128-134. -/
def userMessage (client_name : String) (industries : List String)
    (title : String) (max_words : Nat) (truncated : String) : String :=
  "Company: " ++ client_name ++ "\nIndustry: " ++
    String.intercalate ", " industries ++ "\n\nArticle title: " ++ title ++
    "\n\nArticle text (first " ++ toString max_words ++ " words):\n" ++
    truncated ++ "\n\nScore this article's sentiment FROM " ++ client_name ++
    "'s PERSPECTIVE."

/-- The message `score_with_ai` sends, assembled from the article row, the
client context and the configuration (ai_scorer.py lines 118-134). -/
def requestMessage (a : Article) (ctx : ClientContext) (s : Settings) : String :=
  userMessage (ctx.name.getD "Unknown") (ctx.industries.getD [])
    (a.title.getD "Untitled") ((aiCfg s).max_words.getD 500)
    (_truncate_for_api (articleText a) ((aiCfg s).max_words.getD 500))

/-- The code-fence stripping of `_parse_ai_response` (lines 66-69):
`re.sub(r"^```(?:json)?\s*", "", ·)` then `re.sub(r"\s*```$", "", ·)`
around two `strip()` calls. -/
def stripFences (s : String) : String :=
  let c := pyStrip s
  let c :=
    if strStartsWith c "```json" then pyLstrip (strDrop c 7)
    else if strStartsWith c "```" then pyLstrip (strDrop c 3)
    else c
  let c := if strEndsWith c "```" then pyRstrip (strDropRight c 3) else c
  pyStrip c

/-- Embeds `data["score"]`: key lookup that models both `KeyError` (key absent)
and `TypeError` (`data` is not a dict) as `none`. -/
def jsonGet (j : Json) (k : String) : Option Json :=
  match j with
  | .obj fields => (fields.find? (fun p => p.1 = k)).map (fun p => p.2)
  | _ => none

/-- Python `float(v)` on a JSON value: numbers and booleans convert,
strings go through the abstract numeric-string parser `strFloat` (the
black-box `float(str)`), everything else raises `TypeError` (= `none`). -/
def pyFloat (strFloat : String → Option Rat) : Json → Option Rat
  | .num q => some q
  | .bool b => some (if b then 1 else 0)
  | .str s => strFloat s
  | _ => none

/-- Embeds `_parse_ai_response` (ai_scorer.py lines 60-85), parametrized by the
black-box `json.loads` (`jsonParse`, `none` = `JSONDecodeError`) and
`float(str)` (`strFloat`, `none` = `ValueError`).  Returns
`(round(score, 4), label)` on success, `none` on any parse failure. -/
def _parse_ai_response (jsonParse : String → Option Json)
    (strFloat : String → Option Rat) (response_text : String)
    (settings : Settings) : Option (Rat × String) :=
  match jsonParse (stripFences response_text) with
  | none => none
  | some data =>
    match jsonGet data "score" with
    | none => none
    | some v =>
      match pyFloat strFloat v with
      | none => none
      | some raw =>
        let score := max (-1) (min 1 raw)
        some (round4 score, score_label score settings)

/-- The result dict of a successful `score_with_ai` call. -/
structure AiResult where
  sentiment_score : Rat
  sentiment_label : String
  score_method : String
  deriving DecidableEq

/-- Embeds `input_tokens * 0.00000025 + output_tokens * 0.00000125`
(ai_scorer.py line 151). -/
def estCost (input_tokens output_tokens : Nat) : Rat :=
  input_tokens * 0.00000025 + output_tokens * 0.00000125

/-- Cost tracking of ai_scorer.py lines 148-153 (runs on every completed
API call, whether or not the response later parses). -/
def bumpLedger (st : SessionState) (input_tokens output_tokens : Nat) :
    SessionState :=
  { st with
    session_ai_calls := st.session_ai_calls + 1,
    session_estimated_cost :=
      st.session_estimated_cost + estCost input_tokens output_tokens }

/-- The `try` block of `score_with_ai` (ai_scorer.py lines 136-189),
entered once the early-return gates have passed.
* `import anthropic` failure (`ImportError`) sets the session-fatal flag.
* `_get_client` with no cached client and no `ANTHROPIC_API_KEY` raises
  `ValueError`, which falls into the generic `except Exception` branch:
  the call returns `None` but nothing is disabled.
* After a successful `_get_client` the client singleton is cached
  (`client_inited`), and the `messages.create` outcome is dispatched as in
  the source's `except` clauses: `AuthenticationError` is session-fatal,
  everything else is per-call. -/
def score_with_ai_try (jsonParse : String → Option Json)
    (strFloat : String → Option Rat) (st : SessionState) (w : CallWorld)
    (article_row : Article) (client_context : ClientContext)
    (settings : Settings) : Option AiResult × SessionState :=
  if w.importOk = false then (none, { st with ai_disabled := true })
  else if st.client_inited = false ∧ w.apiKeyPresent = false then (none, st)
  else
    match w.api (requestMessage article_row client_context settings) with
    | .ok itok otok response_text =>
      match _parse_ai_response jsonParse strFloat response_text settings with
      | none => (none, bumpLedger { st with client_inited := true } itok otok)
      | some (sc, lb) =>
        (some ⟨sc, lb, "ai"⟩, bumpLedger { st with client_inited := true } itok otok)
    | .authError => (none, { st with client_inited := true, ai_disabled := true })
    | .rateLimitError => (none, { st with client_inited := true })
    | .connectionError => (none, { st with client_inited := true })
    | .otherError => (none, { st with client_inited := true })

/-- Embeds `score_with_ai` (ai_scorer.py lines 88-189): the early-return gates
(lines 99-116: session-disabled flag, daily budget cap, empty text) in
source order, then the `try` block. -/
def score_with_ai (jsonParse : String → Option Json)
    (strFloat : String → Option Rat) (st : SessionState) (w : CallWorld)
    (article_row : Article) (client_context : ClientContext)
    (settings : Settings) : Option AiResult × SessionState :=
  if st.ai_disabled = true then (none, st)
  else if dailyBudget settings ≤ st.session_estimated_cost then (none, st)
  else if pyStrip (articleText article_row) = "" then (none, st)
  else score_with_ai_try jsonParse strFloat st w article_row client_context settings

/-! ## `score_article` (analyzer.py lines 125-176) -/

/-- The final result dict (the `analyzed_at` wall-clock timestamp, which no
claim concerns, is omitted). -/
structure ScoreResult where
  sentiment_score : Rat
  sentiment_label : String
  score_method : String
  deriving DecidableEq

/-- The lexical-path result dict: VADER score rounded to 4 decimals, VADER
label, `score_method = "vader"`. -/
def lexResult (v : Rat) (s : Settings) : ScoreResult :=
  ⟨round4 v, score_label v s, "vader"⟩

/-- Embeds `score_article`.  The `client_context` parameter defaults to `None` in
the source and is tested for truthiness; `none` here stands for `None` or
an empty dict (both falsy), `some` for a non-empty dict.  The
`from .ai_scorer import score_with_ai` of repository module code always
succeeds, so the `except ImportError` at analyzer.py line 168 is not a
separate branch.  `score_text` can raise (see `_split_sentences`), and that
exception propagates, hence the `Except` result. -/
def score_article (vader : String → Rat) (jsonParse : String → Option Json)
    (strFloat : String → Option Rat) (st : SessionState) (w : CallWorld)
    (article_row : Article) (settings : Settings)
    (client_context : Option ClientContext) :
    Except Unit (ScoreResult × SessionState) :=
  if pyStrip (articleText article_row) = "" then
    .ok (⟨0, "neutral", "vader"⟩, st)
  else
    match score_text vader (articleText article_row) with
    | .error e => .error e
    | .ok vader_score =>
      if (negThreshold settings ≤ vader_score ∧ vader_score < posThreshold settings) ∧
          aiEnabled settings = true ∧ client_context.isSome = true then
        match score_with_ai jsonParse strFloat st w article_row
            (client_context.getD ⟨none, none⟩) settings with
        | (some ai, st1) =>
          .ok (⟨round4 ai.sentiment_score, ai.sentiment_label, "ai"⟩, st1)
        | (none, st1) => .ok (lexResult vader_score settings, st1)
      else .ok (lexResult vader_score settings, st)

/-! ## `tagger.py`: keyword tag matching (lines 39-83) -/

/-- A catalog tag as loaded by `load_tags_for_client`. -/
structure Tag where
  id : Nat
  name : String
  tag_type : String
  keywords : List String
  match_method : String
  deriving DecidableEq

/-- A match record appended by `match_tags_keyword`. -/
structure TagMatch where
  tag_id : Nat
  tag_name : String
  tag_type : String
  matched_keyword : String
  confidence : Rat
  match_method : String
  deriving DecidableEq

/-- Python regex `\w` (ASCII part): letters, digits, underscore. -/
def isWordChar (c : Char) : Bool := c.isAlpha || c.isDigit || c = '_'

def isWordOpt : Option Char → Bool
  | none => false
  | some c => isWordChar c

/-- Does `\b<kw>\b` match at the start of `t`, where `prev` is the
character just before `t` in the full text (`none` at the start)?  A `\b`
holds where word-character-ness changes (out of bounds counts as
non-word). -/
def wbHitHere (kw : List Char) (prev : Option Char) (t : List Char) : Bool :=
  kw.isPrefixOf t &&
    xor (isWordOpt prev) (isWordOpt kw.head?) &&
    xor (isWordOpt kw.getLast?) (isWordOpt (t.drop kw.length).head?)

def wbSearchAux (kw : List Char) : Option Char → List Char → Bool
  | _, [] => false
  | prev, c :: rest => wbHitHere kw prev (c :: rest) || wbSearchAux kw (some c) rest

/-- Embeds `re.search(r"\b" + re.escape(kw) + r"\b", text)` as a Boolean
(tagger.py lines 60-61). -/
def wbSearch (kw text : List Char) : Bool := wbSearchAux kw none text

/-- Python `kw in text` substring containment (tagger.py line 72). -/
def listContains (kw : List Char) : List Char → Bool
  | [] => kw.isEmpty
  | c :: rest => kw.isPrefixOf (c :: rest) || listContains kw rest

/-- Embeds `keyword.lower().strip()` (tagger.py line 55). -/
def kwEffective (kw : String) : String := pyStrip (pyLower kw)

/-- Does one catalog keyword hit the (already lowercased) text?  Empty
trimmed keywords never hit; keywords of trimmed length at most 3 need a
word-boundary match, longer ones plain containment (tagger.py lines 55-72). -/
def kwHits (text_lower : String) (kw : String) : Bool :=
  if kwEffective kw = "" then false
  else if (kwEffective kw).length ≤ 3 then
    wbSearch (kwEffective kw).toList text_lower.toList
  else listContains (kwEffective kw).toList text_lower.toList

/-- The match dict appended for a tag and the (original) keyword that hit:
confidence is hardcoded to 1.0 and the method to "keyword". -/
def mkMatch (tag : Tag) (kw : String) : TagMatch :=
  ⟨tag.id, tag.name, tag.tag_type, kw, 1, "keyword"⟩

/-- The inner keyword loop of `match_tags_keyword` for one tag: skip
keywords that are empty after lowercasing/trimming, otherwise test and
`break` on the first hit. -/
def matchKeywords (tag : Tag) (text_lower : String) :
    List String → Option TagMatch
  | [] => none
  | kw :: rest =>
    if kwEffective kw = "" then matchKeywords tag text_lower rest
    else if (kwEffective kw).length ≤ 3 then
      if wbSearch (kwEffective kw).toList text_lower.toList then some (mkMatch tag kw)
      else matchKeywords tag text_lower rest
    else
      if listContains (kwEffective kw).toList text_lower.toList then some (mkMatch tag kw)
      else matchKeywords tag text_lower rest

/-- Embeds `match_tags_keyword(text, tags)` (tagger.py lines 39-83): empty text
yields no matches; non-keyword tags are skipped; each keyword tag
contributes at most its first hit, in catalog order. -/
def match_tags_keyword (text : String) (tags : List Tag) : List TagMatch :=
  if text = "" then []
  else
    tags.filterMap (fun tag =>
      if tag.match_method = "keyword" then
        matchKeywords tag (pyLower text) tag.keywords
      else none)

/-! ## Concrete fixtures for counterexamples and witnesses -/

/-- A VADER oracle that scores every string 0 (a legitimate lexicon value,
in the neutral band under the default thresholds). -/
def vader0 : String → Rat := fun _ => 0

/-- A `json.loads` oracle that fails on every input. -/
def jp0 : String → Option Json := fun _ => none

/-- A `json.loads` oracle that parses the provider reply `RESP` to
`{"score": 0.5}` and fails on everything else. -/
def jpGood : String → Option Json := fun s =>
  if s = "RESP" then some (.obj [("score", Json.num (1/2))]) else none

/-- A `float(str)` oracle that fails on every input. -/
def sf0 : String → Option Rat := fun _ => none

/-- Fresh session state at process start (ai_scorer.py lines 17-21). -/
def st0 : SessionState := ⟨false, false, 0, 0⟩

/-- A session in which contextual scoring has been disabled. -/
def stDisabled : SessionState := ⟨true, false, 0, 0⟩

/-- A world where every provider call fails with a generic error. -/
def w0 : CallWorld := ⟨true, true, fun _ => .otherError⟩

/-- A world where the provider replies `RESP` with zero token usage. -/
def wOk : CallWorld := ⟨true, true, fun _ => .ok 0 0 "RESP"⟩

/-- Like `wOk` but with `ANTHROPIC_API_KEY` absent from the environment. -/
def wNoKey : CallWorld := ⟨true, false, fun _ => .ok 0 0 "RESP"⟩

/-- An ordinary article with short non-empty content. -/
def artA : Article := ⟨1, some "T", some "steady text"⟩

/-- An article whose extracted text is empty (`content_text` NULL, `title`
the empty string). -/
def artEmpty : Article := ⟨9, some "", none⟩

/-- A non-empty client context dict. -/
def ctxA : ClientContext := ⟨some "Acme", some ["mining"]⟩

/-- Settings with contextual scoring enabled and every other key left to
its default. -/
def sOn : Settings :=
  ⟨some ⟨none, none, some ⟨some true, none, none, none, none, none⟩, none⟩⟩

/-- Settings with no `sentiment` section at all (contextual scoring
disabled, default thresholds). -/
def sOff : Settings := ⟨none⟩

/-- Settings whose positive threshold is 0 (so a score of exactly 0 labels
as positive). -/
def sZeroPos : Settings := ⟨some ⟨some 0, none, none, none⟩⟩

/-- A text of length 285 (> 280) whose first regex-split fragment is
`"   ."`: stripping the trailing period leaves only whitespace, so
analyzer.py line 60 indexes `[-1]` into an empty `rsplit` result and
raises `IndexError`. -/
def c2text : String := "   . " ++ String.mk (List.replicate 280 'A')

/-- A catalog tag with the 3-character keyword `Inc`. -/
def incTag : Tag := ⟨1, "IncTag", "custom", ["Inc"], "keyword"⟩

/-- A catalog tag with the 5-character keyword `Shell`. -/
def shellTag : Tag := ⟨2, "ShellTag", "custom", ["Shell"], "keyword"⟩

/-- A catalog tag whose first keyword is whitespace-only and whose second
is `carbon`. -/
def envTag : Tag := ⟨3, "Environment", "esg", ["  ", "carbon"], "keyword"⟩

end SentimentVision

namespace SentimentVision

/-! ## Helper lemmas -/

theorem round4_shape (q : Rat) : ∃ m : ℤ, round4 q = (m : Rat) / 10000 := by
  unfold round4
  split_ifs
  · exact ⟨⌊q * 10000⌋, rfl⟩
  · exact ⟨⌊q * 10000⌋ + 1, by push_cast; ring⟩
  · exact ⟨⌊q * 10000⌋, rfl⟩
  · exact ⟨⌊q * 10000⌋ + 1, by push_cast; ring⟩

theorem round4_int_div (m : ℤ) : round4 ((m : Rat) / 10000) = (m : Rat) / 10000 := by
  unfold round4
  have hx : ((m : Rat) / 10000) * 10000 = (m : Rat) :=
    div_mul_cancel₀ _ (by norm_num)
  rw [hx, Int.floor_intCast, sub_self]
  norm_num

theorem round4_idem (q : Rat) : round4 (round4 q) = round4 q := by
  obtain ⟨m, hm⟩ := round4_shape q
  rw [hm, round4_int_div]

theorem estCost_nonneg (i o : Nat) : 0 ≤ estCost i o := by
  unfold estCost
  positivity

/-- C6: the labeling function is total over all scores and settings, the
three outcomes are characterized exactly by the source's threshold
comparisons (an `if`/`elif` chain: `score >= positive_threshold` is checked
first, then `score < negative_threshold`, otherwise neutral), and the
thresholds are read from the settings with defaults `0.2` / `-0.2` when the
`sentiment` section or the individual keys are absent. -/
theorem C6_label_total :
    (∀ (q : Rat) (s : Settings),
      (score_label q s = "positive" ∨ score_label q s = "negative" ∨
        score_label q s = "neutral") ∧
      (score_label q s = "positive" ↔ posThreshold s ≤ q) ∧
      (score_label q s = "negative" ↔ q < posThreshold s ∧ q < negThreshold s) ∧
      (score_label q s = "neutral" ↔ q < posThreshold s ∧ negThreshold s ≤ q)) ∧
    (∀ (pt nt : Rat) (ai : Option AiScoringCfg) (bs : Option Nat),
      posThreshold ⟨some ⟨some pt, some nt, ai, bs⟩⟩ = pt ∧
      negThreshold ⟨some ⟨some pt, some nt, ai, bs⟩⟩ = nt) ∧
    (posThreshold ⟨none⟩ = 0.2 ∧ negThreshold ⟨none⟩ = -0.2) ∧
    (∀ (ai : Option AiScoringCfg) (bs : Option Nat),
      posThreshold ⟨some ⟨none, none, ai, bs⟩⟩ = 0.2 ∧
      negThreshold ⟨some ⟨none, none, ai, bs⟩⟩ = -0.2) := by
  refine ⟨fun q s => ?_, fun pt nt ai bs => ⟨rfl, rfl⟩, ⟨rfl, rfl⟩,
    fun ai bs => ⟨rfl, rfl⟩⟩
  unfold score_label
  rcases le_or_lt (posThreshold s) q with hp | hp
  · rw [if_pos hp]
    refine ⟨Or.inl rfl, ⟨fun _ => hp, fun _ => rfl⟩, ?_, ?_⟩
    · constructor
      · intro h; exact absurd h (by decide)
      · rintro ⟨h1, _⟩; exact absurd hp (not_le.mpr h1)
    · constructor
      · intro h; exact absurd h (by decide)
      · rintro ⟨h1, _⟩; exact absurd hp (not_le.mpr h1)
  · rw [if_neg (not_le.mpr hp)]
    rcases lt_or_le q (negThreshold s) with hn | hn
    · rw [if_pos hn]
      refine ⟨Or.inr (Or.inl rfl), ?_, ⟨fun _ => ⟨hp, hn⟩, fun _ => rfl⟩, ?_⟩
      · constructor
        · intro h; exact absurd h (by decide)
        · intro h; exact absurd h (not_le.mpr hp)
      · constructor
        · intro h; exact absurd h (by decide)
        · rintro ⟨_, h2⟩; exact absurd hn (not_lt.mpr h2)
    · rw [if_neg (not_lt.mpr hn)]
      refine ⟨Or.inr (Or.inr rfl), ?_, ?_, ⟨fun _ => ⟨hp, hn⟩, fun _ => rfl⟩⟩
      · constructor
        · intro h; exact absurd h (by decide)
        · intro h; exact absurd h (not_le.mpr hp)
      · constructor
        · intro h; exact absurd h (by decide)
        · rintro ⟨_, h2⟩; exact absurd h2 (not_lt.mpr hn)

end SentimentVision

namespace SentimentVision

/-- C7: once the ledger's estimated session spend has reached the derived
daily cap `monthly_budget_usd / 30`, `score_with_ai` returns `None`
immediately with the session state untouched (no provider call, no ledger
change, no reset), and the ledger is monotone across every call, so the
cap stays reached for the rest of the session. -/
theorem C7_budget_stop :
    (∀ jp sf st w a c s, dailyBudget s ≤ st.session_estimated_cost →
      score_with_ai jp sf st w a c s = (none, st)) ∧
    (∀ jp sf st w a c s,
      st.session_estimated_cost ≤
        (score_with_ai jp sf st w a c s).2.session_estimated_cost) := by
  constructor
  · intro jp sf st w a c s h
    by_cases hd : st.ai_disabled = true
    · simp [score_with_ai, hd]
    · simp [score_with_ai, hd, h]
  · intro jp sf st w a c s
    unfold score_with_ai
    split_ifs with h1 h2 h3
    · simp
    · simp
    · simp
    · unfold score_with_ai_try
      split_ifs with h4 h5
      · simp
      · simp
      · rcases hapi : w.api (requestMessage a c s) with ⟨i, o, r⟩ | _ | _ | _ | _
        · rcases hp : _parse_ai_response jp sf r s with _ | ⟨sc, lb⟩ <;>
            · simp only [hp, bumpLedger]
              exact le_add_of_nonneg_right (estCost_nonneg i o)
        · simp
        · simp
        · simp
        · simp

/-- Witness for C7 at a concrete input: with the default budget
(3.0 / 30 = 0.1) and a ledger already at 0.1, the call is a no-op. -/
theorem C7_budget_stop_witness :
    dailyBudget sOn ≤ (SessionState.mk false true 3 (1/10)).session_estimated_cost ∧
    score_with_ai jpGood sf0 (SessionState.mk false true 3 (1/10)) wOk artA ctxA sOn =
      (none, SessionState.mk false true 3 (1/10)) := by
  have h : dailyBudget sOn ≤ (SessionState.mk false true 3 (1/10)).session_estimated_cost := by
    norm_num [dailyBudget, aiCfg, sentimentCfg, sOn]
  exact ⟨h, C7_budget_stop.1 jpGood sf0 _ wOk artA ctxA sOn h⟩

end SentimentVision

namespace SentimentVision

/-- Case analysis of `score_with_ai`: every call either returns `none`
(with some updated state) or returns a result dict, and the latter happens
only on the one success path: `import anthropic` succeeded, the provider
returned a response, and the response parsed. -/
theorem swai_cases :
    ∀ (jp : String → Option Json) (sf : String → Option Rat)
      (st : SessionState) (w : CallWorld) (a : Article)
      (ctx : ClientContext) (s : Settings),
      (∃ st1, score_with_ai jp sf st w a ctx s = (none, st1)) ∨
      (∃ r st1 itok otok rt,
        w.importOk = true ∧
        w.api (requestMessage a ctx s) = .ok itok otok rt ∧
        _parse_ai_response jp sf rt s = some (r.sentiment_score, r.sentiment_label) ∧
        r.score_method = "ai" ∧
        score_with_ai jp sf st w a ctx s = (some r, st1)) := by
  intro jp sf st w a ctx s
  rcases hres : score_with_ai jp sf st w a ctx s with ⟨ores, st1⟩
  rcases ores with _ | r
  · exact Or.inl ⟨st1, rfl⟩
  · right
    unfold score_with_ai at hres
    split_ifs at hres with h1 h2 h3
    · simp at hres
    · simp at hres
    · simp at hres
    · unfold score_with_ai_try at hres
      split_ifs at hres with h4 h5
      · simp at hres
      · simp at hres
      · rcases hapi : w.api (requestMessage a ctx s) with ⟨i, o, rt⟩ | _ | _ | _ | _ <;>
          simp only [hapi] at hres
        · rcases hp : _parse_ai_response jp sf rt s with _ | ⟨sc, lb⟩ <;>
            simp only [hp] at hres
          · simp at hres
          · rw [Prod.mk.injEq] at hres
            obtain ⟨hr, hst⟩ := hres
            rw [Option.some.injEq] at hr
            subst hr
            subst hst
            exact ⟨⟨sc, lb, "ai"⟩, _, i, o, rt,
              by revert h4; cases w.importOk <;> simp, rfl, hp, rfl, rfl⟩
        · simp at hres
        · simp at hres
        · simp at hres
        · simp at hres

end SentimentVision

namespace SentimentVision

/-- Evaluating the parse of the fixture reply `RESP` under any settings:
the parsed score 0.5 survives clamping and rounding. -/
theorem parse_RESP (s : Settings) :
    _parse_ai_response jpGood sf0 "RESP" s = some (1/2, score_label (1/2) s) := by
  unfold _parse_ai_response
  have hstrip : stripFences "RESP" = "RESP" := by decide
  rw [hstrip]
  simp [jpGood, jsonGet, pyFloat, List.find?]
  have hclamp : (-1 ⊔ 1 ⊓ 2⁻¹ : Rat) = 2⁻¹ := by norm_num
  rw [hclamp]
  exact ⟨by norm_num [round4], rfl⟩

end SentimentVision

namespace SentimentVision

/-- C4 (amended): a missing `ANTHROPIC_API_KEY` is a per-call failure, not
a session-fatal one.  When no client has been cached and the key is absent
(but `anthropic` imports), `score_with_ai` returns `None` with the session
state completely unchanged — in particular the disabled flag is NOT set
and the provider is not contacted.  The second conjunct shows which
failures actually set the session-fatal flag: it only ever becomes true
through an `ImportError` or an `AuthenticationError`. -/
theorem C4_missing_key_per_call :
    (∀ (jp : String → Option Json) (sf : String → Option Rat)
       (st : SessionState) (w : CallWorld) (a : Article)
       (c : ClientContext) (s : Settings),
      st.client_inited = false → w.apiKeyPresent = false → w.importOk = true →
      score_with_ai jp sf st w a c s = (none, st)) ∧
    (∀ (jp : String → Option Json) (sf : String → Option Rat)
       (st : SessionState) (w : CallWorld) (a : Article)
       (c : ClientContext) (s : Settings),
      (score_with_ai jp sf st w a c s).2.ai_disabled = true →
      st.ai_disabled = true ∨ w.importOk = false ∨
        w.api (requestMessage a c s) = .authError) := by
  constructor
  · intro jp sf st w a c s hi hk himp
    unfold score_with_ai
    split_ifs with h1 h2 h3
    · rfl
    · rfl
    · rfl
    · unfold score_with_ai_try
      rw [if_neg (by simp [himp]), if_pos ⟨hi, hk⟩]
  · intro jp sf st w a c s h
    unfold score_with_ai at h
    split_ifs at h with h1 h2 h3
    · exact Or.inl h
    · exact Or.inl h
    · exact Or.inl h
    · unfold score_with_ai_try at h
      split_ifs at h with h4 h5
      · exact Or.inr (Or.inl h4)
      · exact Or.inl h
      · rcases hapi : w.api (requestMessage a c s) with ⟨i, o, rt⟩ | _ | _ | _ | _ <;>
          simp only [hapi] at h
        · rcases hp : _parse_ai_response jp sf rt s with _ | ⟨sc, lb⟩ <;>
            simp only [hp, bumpLedger] at h <;> exact Or.inl h
        · exact Or.inr (Or.inr rfl)
        · exact Or.inl h
        · exact Or.inl h
        · exact Or.inl h

/-- Witness for C4's amended theorem at a concrete input. -/
theorem C4_missing_key_per_call_witness :
    st0.client_inited = false ∧ wNoKey.apiKeyPresent = false ∧
    wNoKey.importOk = true ∧
    score_with_ai jpGood sf0 st0 wNoKey artA ctxA sOn = (none, st0) := by
  exact ⟨rfl, rfl, rfl,
    C4_missing_key_per_call.1 jpGood sf0 st0 wNoKey artA ctxA sOn rfl rfl rfl⟩

/-- Counterexample to C4 as stated: in a fresh session, a call that finds
`ANTHROPIC_API_KEY` missing returns `None` but leaves the session state
(including the disabled flag) untouched, and a later call in the same
state that does find the key succeeds — so contextual scoring was not
"disabled for the remainder of the run" by the missing credential. -/
theorem C4_counterexample :
    score_with_ai jpGood sf0 st0 wNoKey artA ctxA sOn = (none, st0) ∧
    st0.ai_disabled = false ∧
    (score_with_ai jpGood sf0 st0 wOk artA ctxA sOn).1 =
      some ⟨1/2, "positive", "ai"⟩ := by
  have hbudget : ¬ dailyBudget sOn ≤ st0.session_estimated_cost := by
    norm_num [dailyBudget, aiCfg, sentimentCfg, sOn, st0]
  have htext : ¬ pyStrip (articleText artA) = "" := by decide
  have hlabel : score_label (1/2) sOn = "positive" := by
    norm_num [score_label, posThreshold, sentimentCfg, sOn]
  refine ⟨?_, rfl, ?_⟩
  · unfold score_with_ai score_with_ai_try
    rw [if_neg (by decide), if_neg hbudget, if_neg htext,
      if_neg (by decide), if_pos (by decide)]
  · unfold score_with_ai score_with_ai_try
    rw [if_neg (by decide), if_neg hbudget, if_neg htext,
      if_neg (by decide), if_neg (by decide)]
    have hapi : wOk.api (requestMessage artA ctxA sOn) = .ok 0 0 "RESP" := rfl
    rw [hapi]
    simp only [parse_RESP, hlabel]

end SentimentVision

namespace SentimentVision

/-- C1 (amended): provided contextual scoring has not been session-disabled
(`ai_disabled = false`), and on an article with non-empty text whose
lexical scoring returns `v`, the pipeline executes the contextual-scoring
attempt (the `try` block of `score_with_ai`) if and only if the lexical
score lies in the neutral band AND `ai_scoring.enabled` is truthy AND a
non-empty client context was supplied AND the session spend is below the
derived daily cap; in every other case — in particular whenever
`ai_scoring.enabled` is falsy — the result is the lexical one and the
session state is returned untouched. -/
theorem C1_escalation_policy :
    ∀ (vader : String → Rat) (jp : String → Option Json)
      (sf : String → Option Rat) (st : SessionState) (w : CallWorld)
      (a : Article) (s : Settings) (ctx : Option ClientContext) (v : Rat),
      st.ai_disabled = false →
      pyStrip (articleText a) ≠ "" →
      score_text vader (articleText a) = .ok v →
      ((((negThreshold s ≤ v ∧ v < posThreshold s) ∧ aiEnabled s = true ∧
          ctx.isSome = true ∧ st.session_estimated_cost < dailyBudget s) →
        score_article vader jp sf st w a s ctx =
          (match score_with_ai_try jp sf st w a (ctx.getD ⟨none, none⟩) s with
           | (some ai, st1) =>
             .ok (⟨round4 ai.sentiment_score, ai.sentiment_label, "ai"⟩, st1)
           | (none, st1) => .ok (lexResult v s, st1))) ∧
       ((¬ ((negThreshold s ≤ v ∧ v < posThreshold s) ∧ aiEnabled s = true ∧
          ctx.isSome = true ∧ st.session_estimated_cost < dailyBudget s)) →
        score_article vader jp sf st w a s ctx = .ok (lexResult v s, st)) ∧
       (aiEnabled s = false →
        score_article vader jp sf st w a s ctx = .ok (lexResult v s, st))) := by
  intro vader jp sf st w a s ctx v hd htext hv
  refine ⟨fun hcond => ?_, fun hncond => ?_, fun hoff => ?_⟩
  · obtain ⟨hband, hen, hctx, hcost⟩ := hcond
    unfold score_article
    rw [if_neg htext]
    simp only [hv]
    rw [if_pos ⟨hband, hen, hctx⟩]
    have hsw : score_with_ai jp sf st w a (ctx.getD ⟨none, none⟩) s =
        score_with_ai_try jp sf st w a (ctx.getD ⟨none, none⟩) s := by
      unfold score_with_ai
      rw [if_neg (by simp [hd]), if_neg (not_le.mpr hcost), if_neg htext]
    rw [hsw]
  · unfold score_article
    rw [if_neg htext]
    simp only [hv]
    by_cases hc : (negThreshold s ≤ v ∧ v < posThreshold s) ∧
        aiEnabled s = true ∧ ctx.isSome = true
    · have hcost : dailyBudget s ≤ st.session_estimated_cost := by
        by_contra hlt
        exact hncond ⟨hc.1, hc.2.1, hc.2.2, not_le.mp hlt⟩
      rw [if_pos hc]
      have hsw : score_with_ai jp sf st w a (ctx.getD ⟨none, none⟩) s = (none, st) := by
        unfold score_with_ai
        rw [if_neg (by simp [hd]), if_pos hcost]
      rw [hsw]
    · rw [if_neg hc]
  · unfold score_article
    rw [if_neg htext]
    simp only [hv]
    rw [if_neg (by simp [hoff])]

/-- Witness for C1's amended theorem: with contextual scoring disabled in
the configuration, a concrete article takes the pure lexical path with the
session state untouched. -/
theorem C1_escalation_policy_witness :
    st0.ai_disabled = false ∧ pyStrip (articleText artA) ≠ "" ∧
    score_text vader0 (articleText artA) = .ok 0 ∧ aiEnabled sOff = false ∧
    score_article vader0 jpGood sf0 st0 wOk artA sOff (some ctxA) =
      .ok (lexResult 0 sOff, st0) :=
  ⟨rfl, by decide, by decide, rfl,
    (C1_escalation_policy vader0 jpGood sf0 st0 wOk artA sOff (some ctxA) 0
      rfl (by decide) (by decide)).2.2 rfl⟩

/-- Counterexample to C1 as stated: in a session where contextual scoring
has been disabled (`stDisabled`), all four conditions of the claimed
"if and only if" hold — neutral-band lexical score, `ai_scoring.enabled`
true, non-empty client context, spend below the daily cap — and the world
would even deliver a parseable response, yet `score_article` returns the
lexical result with the session state untouched: contextual scoring is not
attempted.  The last conjunct shows the `try` block would have produced a
contextual result had it been entered. -/
theorem C1_counterexample :
    (negThreshold sOn ≤ vader0 (articleText artA) ∧
      vader0 (articleText artA) < posThreshold sOn) ∧
    aiEnabled sOn = true ∧
    (some ctxA).isSome = true ∧
    stDisabled.session_estimated_cost < dailyBudget sOn ∧
    score_article vader0 jpGood sf0 stDisabled wOk artA sOn (some ctxA) =
      .ok (⟨0, "neutral", "vader"⟩, stDisabled) ∧
    (score_with_ai_try jpGood sf0 stDisabled wOk artA ctxA sOn).1.isSome = true := by
  have hneg : negThreshold sOn = -0.2 := rfl
  have hpos : posThreshold sOn = 0.2 := rfl
  have hband : negThreshold sOn ≤ vader0 (articleText artA) ∧
      vader0 (articleText artA) < posThreshold sOn := by
    rw [hneg, hpos]; constructor <;> norm_num [vader0]
  have hcost : stDisabled.session_estimated_cost < dailyBudget sOn := by
    norm_num [stDisabled, dailyBudget, aiCfg, sentimentCfg, sOn]
  have hlex : lexResult 0 sOn = ⟨0, "neutral", "vader"⟩ := by
    unfold lexResult
    have h0 : round4 0 = 0 := by norm_num [round4]
    have hlab : score_label 0 sOn = "neutral" := by
      unfold score_label
      rw [if_neg (by rw [hpos]; norm_num), if_neg (by rw [hneg]; norm_num)]
    rw [h0, hlab]
  refine ⟨hband, rfl, rfl, hcost, ?_, ?_⟩
  · unfold score_article
    rw [if_neg (by decide)]
    have hv : score_text vader0 (articleText artA) = .ok 0 := by decide
    simp only [hv]
    rw [if_pos ⟨hband, rfl, rfl⟩]
    have hsw : score_with_ai jpGood sf0 stDisabled wOk artA
        ((some ctxA).getD ⟨none, none⟩) sOn = (none, stDisabled) := by
      unfold score_with_ai
      rw [if_pos (show stDisabled.ai_disabled = true from rfl)]
    rw [hsw, hlex]
  · unfold score_with_ai_try
    rw [if_neg (by decide), if_neg (by decide)]
    have hapi : wOk.api (requestMessage artA ctxA sOn) = .ok 0 0 "RESP" := rfl
    rw [hapi]
    simp only [parse_RESP]
    rfl

end SentimentVision

namespace SentimentVision

/-- C3: the contextual scorer never raises to its caller.  `score_with_ai`
is a total function of its inputs (the embedding catches every Python
exception path inside it), and a result dict is produced only on the one
success path — `import anthropic` succeeded, the provider returned a
response, and the response parsed; every failure path (session disabled,
budget reached, empty input text, import failure, missing credential, auth
rejection, rate limit, connectivity failure, malformed response) produces
`None`, which the orchestrator interprets as "fall back to the lexical
score". -/
theorem C3_never_raises :
    ∀ (jp : String → Option Json) (sf : String → Option Rat)
      (st : SessionState) (w : CallWorld) (a : Article)
      (ctx : ClientContext) (s : Settings),
      (∃ st1, score_with_ai jp sf st w a ctx s = (none, st1)) ∨
      (∃ r st1 itok otok rt,
        w.importOk = true ∧
        w.api (requestMessage a ctx s) = .ok itok otok rt ∧
        _parse_ai_response jp sf rt s = some (r.sentiment_score, r.sentiment_label) ∧
        r.score_method = "ai" ∧
        score_with_ai jp sf st w a ctx s = (some r, st1)) :=
  swai_cases

/-- C5: whenever every response the provider can return fails to parse
(invalid JSON, missing or non-numeric `score` field), `score_article`
returns the unchanged lexical result — the lexical score (rounded), the
lexical label, and `score_method = "vader"` — and never an error. -/
theorem C5_malformed_fallback :
    ∀ (vader : String → Rat) (jp : String → Option Json)
      (sf : String → Option Rat) (st : SessionState) (w : CallWorld)
      (a : Article) (s : Settings) (ctx : Option ClientContext) (v : Rat),
      pyStrip (articleText a) ≠ "" →
      score_text vader (articleText a) = .ok v →
      (∀ msg itok otok rt, w.api msg = .ok itok otok rt →
        _parse_ai_response jp sf rt s = none) →
      ∃ st1, score_article vader jp sf st w a s ctx =
        .ok (lexResult v s, st1) := by
  intro vader jp sf st w a s ctx v htext hv hbad
  unfold score_article
  rw [if_neg htext]
  simp only [hv]
  by_cases hc : (negThreshold s ≤ v ∧ v < posThreshold s) ∧
      aiEnabled s = true ∧ ctx.isSome = true
  · rw [if_pos hc]
    obtain h | h := swai_cases jp sf st w a (ctx.getD ⟨none, none⟩) s
    · obtain ⟨st1, heq⟩ := h
      exact ⟨st1, by rw [heq]⟩
    · obtain ⟨r, st1, i, o, rt, him, hapi, hp, hm, heq⟩ := h
      exact absurd (hp.symm.trans (hbad _ i o rt hapi)) (by simp)
  · rw [if_neg hc]
    exact ⟨st, rfl⟩

/-- Witness for C5: a provider that replies non-JSON text (modelled by the
always-failing `json.loads` oracle `jp0`) leaves a concrete neutral-band,
escalation-enabled article on its lexical result. -/
theorem C5_malformed_fallback_witness :
    pyStrip (articleText artA) ≠ "" ∧
    score_text vader0 (articleText artA) = .ok 0 ∧
    ∃ st1, score_article vader0 jp0 sf0 st0 wOk artA sOn (some ctxA) =
      .ok (lexResult 0 sOn, st1) :=
  ⟨by decide, by decide,
    C5_malformed_fallback vader0 jp0 sf0 st0 wOk artA sOn (some ctxA) 0
      (by decide) (by decide) (fun _ _ _ _ _ => rfl)⟩

end SentimentVision

namespace SentimentVision

/-- Any successful parse result has the shape
`(round(clamped, 4), score_label(clamped))` for the clamped raw score:
the label is computed from the clamped but UNROUNDED score. -/
theorem parse_shape (jp : String → Option Json) (sf : String → Option Rat)
    (rt : String) (s : Settings) (sc : Rat) (lb : String) :
    _parse_ai_response jp sf rt s = some (sc, lb) →
    ∃ q, sc = round4 q ∧ lb = score_label q s := by
  intro h
  unfold _parse_ai_response at h
  rcases hj : jp (stripFences rt) with _ | data <;> simp only [hj] at h
  · exact absurd h (by simp)
  · rcases hg : jsonGet data "score" with _ | v <;> simp only [hg] at h
    · exact absurd h (by simp)
    · rcases hf : pyFloat sf v with _ | raw <;> simp only [hf] at h
      · exact absurd h (by simp)
      · rw [Option.some.injEq, Prod.mk.injEq] at h
        exact ⟨max (-1) (min 1 raw), h.1.symm, h.2.symm⟩

/-- Any result dict returned by `score_with_ai` carries a score that is the
4-decimal rounding of some clamped raw value and the label computed from
that same pre-rounding value. -/
theorem swai_some_shape (jp : String → Option Json) (sf : String → Option Rat)
    (st : SessionState) (w : CallWorld) (a : Article) (ctx : ClientContext)
    (s : Settings) (r : AiResult) (st1 : SessionState) :
    score_with_ai jp sf st w a ctx s = (some r, st1) →
    ∃ q, r.sentiment_score = round4 q ∧ r.sentiment_label = score_label q s := by
  intro h
  obtain hn | hs := swai_cases jp sf st w a ctx s
  · obtain ⟨st2, heq⟩ := hn
    rw [h, Prod.mk.injEq] at heq
    exact absurd heq.1 (by simp)
  · obtain ⟨r2, st2, i, o, rt, him, hapi, hp, hm, heq⟩ := hs
    rw [h, Prod.mk.injEq, Option.some.injEq] at heq
    obtain ⟨hr, _⟩ := heq
    subst hr
    exact parse_shape jp sf rt s _ _ hp

end SentimentVision

namespace SentimentVision

/-- C9 (amended): every `ScoreResult` produced by `score_article` either
comes from the empty-text path, where it is the fixed triple
`(0.0, "neutral", "vader")` irrespective of the thresholds, or its label
is the label function applied to the final PRE-ROUNDING score — the raw
VADER score on the lexical path, the clamped unrounded model score on the
contextual path — and its returned score is the 4-decimal rounding of that
same labeled score.  On both paths the rounding happens only on return,
after labeling, so the returned rounded score may cross a threshold that
the labeled score did not. -/
theorem C9_label_invariant :
    ∀ (vader : String → Rat) (jp : String → Option Json)
      (sf : String → Option Rat) (st : SessionState) (w : CallWorld)
      (a : Article) (s : Settings) (ctx : Option ClientContext)
      (res : ScoreResult) (st1 : SessionState),
      score_article vader jp sf st w a s ctx = .ok (res, st1) →
      res = ⟨0, "neutral", "vader"⟩ ∨
      ∃ raw, res.sentiment_score = round4 raw ∧
        res.sentiment_label = score_label raw s := by
  intro vader jp sf st w a s ctx res st1 h
  unfold score_article at h
  split_ifs at h with h1
  · rw [Except.ok.injEq, Prod.mk.injEq] at h
    exact Or.inl h.1.symm
  · rcases hv : score_text vader (articleText a) with e | v <;> simp only [hv] at h
    · exact absurd h (by simp)
    · split_ifs at h with hc
      · rcases hsw : score_with_ai jp sf st w a (ctx.getD ⟨none, none⟩) s with ⟨ores, st2⟩
        rw [hsw] at h
        rcases ores with _ | r
        · rw [Except.ok.injEq, Prod.mk.injEq] at h
          obtain ⟨hres, _⟩ := h
          subst hres
          exact Or.inr ⟨v, rfl, rfl⟩
        · rw [Except.ok.injEq, Prod.mk.injEq] at h
          obtain ⟨hres, _⟩ := h
          subst hres
          obtain ⟨q, hq1, hq2⟩ := swai_some_shape jp sf st w a _ s r st2 hsw
          refine Or.inr ⟨q, ?_, ?_⟩
          · show round4 r.sentiment_score = round4 q
            rw [hq1, round4_idem]
          · exact hq2
      · rw [Except.ok.injEq, Prod.mk.injEq] at h
        obtain ⟨hres, _⟩ := h
        subst hres
        exact Or.inr ⟨v, rfl, rfl⟩

/-- Witness for C9's amended theorem at a concrete lexical-path run. -/
theorem C9_label_invariant_witness :
    score_article vader0 jp0 sf0 st0 w0 artA sOff none =
      .ok (lexResult 0 sOff, st0) ∧
    (lexResult 0 sOff = ⟨0, "neutral", "vader"⟩ ∨
      ∃ raw, (lexResult 0 sOff).sentiment_score = round4 raw ∧
        (lexResult 0 sOff).sentiment_label = score_label raw sOff) := by
  have heq : score_article vader0 jp0 sf0 st0 w0 artA sOff none =
      .ok (lexResult 0 sOff, st0) := by
    unfold score_article
    rw [if_neg (by decide)]
    have hv : score_text vader0 (articleText artA) = .ok 0 := by decide
    simp only [hv]
    rw [if_neg (fun hcon => absurd hcon.2.1 (by decide))]
  exact ⟨heq, C9_label_invariant vader0 jp0 sf0 st0 w0 artA sOff none _ _ heq⟩

/-- Counterexample to C9 as stated: with `positive_threshold = 0.0` (a
legal configuration) and an article whose extracted text is empty,
`score_article` returns the hardcoded result `(0.0, "neutral", "vader")`,
but the label function applied to the returned (and exactly 4-decimal)
score `0.0` under the same settings yields `"positive"` — so the returned
label is NOT the label function of the returned score on the empty-text
path. -/
theorem C9_counterexample :
    score_article vader0 jp0 sf0 st0 w0 artEmpty sZeroPos none =
      .ok (⟨0, "neutral", "vader"⟩, st0) ∧
    round4 (0 : Rat) = 0 ∧
    score_label (0 : Rat) sZeroPos = "positive" ∧
    ("neutral" : String) ≠ "positive" := by
  refine ⟨?_, by norm_num [round4], ?_, by decide⟩
  · unfold score_article
    rw [if_pos (by decide)]
  · unfold score_label
    rw [if_pos (by norm_num [posThreshold, sentimentCfg, sZeroPos])]

end SentimentVision

namespace SentimentVision

set_option maxRecDepth 10000 in
/-- C2 (code bug): `score_text` does not always segment-and-aggregate texts
longer than 280 characters — on `c2text` (length 285, beginning with the
fragment `"   ."`), `_split_sentences` raises `IndexError` at analyzer.py
line 60 (`rsplit(None, 1)[-1]` on a buffer that is all whitespace after
stripping trailing periods), so `score_text` raises instead of returning a
score.  On texts where the splitter succeeds the claimed aggregation does
hold; this input shows the claim is not true of every text longer than
280 characters. -/
theorem C2_crash_eval :
    280 < c2text.length ∧
    _split_sentences c2text = .error () ∧
    score_text vader0 c2text = .error () := by
  refine ⟨by decide, by decide, by decide⟩

end SentimentVision

namespace SentimentVision

/-- The keyword loop of `match_tags_keyword` returns the first keyword, in
list order, that hits (`List.find?` semantics), wrapped as a match. -/
theorem matchKeywords_eq_find (tag : Tag) (tl : String) :
    ∀ kws, matchKeywords tag tl kws = (kws.find? (kwHits tl)).map (mkMatch tag)
  | [] => rfl
  | kw :: rest => by
    have ih := matchKeywords_eq_find tag tl rest
    simp only [matchKeywords]
    by_cases he : kwEffective kw = ""
    · rw [if_pos he, ih, List.find?_cons_of_neg _ (by simp [kwHits, he])]
    · rw [if_neg he]
      by_cases hlen : (kwEffective kw).length ≤ 3
      · rw [if_pos hlen]
        cases hwb : wbSearch (kwEffective kw).toList tl.toList
        · rw [if_neg (by simp [hwb]), ih,
            List.find?_cons_of_neg _ (by simpa [kwHits, he, hlen, String.toList] using hwb)]
        · rw [if_pos (by simp [hwb]),
            List.find?_cons_of_pos _ (by simpa [kwHits, he, hlen, String.toList] using hwb)]
          rfl
      · rw [if_neg hlen]
        cases hct : listContains (kwEffective kw).toList tl.toList
        · rw [if_neg (by simp [hct]), ih,
            List.find?_cons_of_neg _ (by simpa [kwHits, he, hlen, String.toList] using hct)]
        · rw [if_pos (by simp [hct]),
            List.find?_cons_of_pos _ (by simpa [kwHits, he, hlen, String.toList] using hct)]
          rfl

end SentimentVision

namespace SentimentVision

/-- C8: keyword tag matching, characterized.  For non-empty text the match
list is exactly: for each catalog entry with `match_method = "keyword"`,
the FIRST keyword in its list order whose lowercased/trimmed form hits the
lowercased text (`List.find?`), recorded with confidence 1.0 and the
keyword-boundary rule — trimmed length at most 3 requires a `\b`-bounded
occurrence, longer keywords plain substring containment.  Every emitted
match has confidence 1.0 and method "keyword"; concretely, the 3-character
keyword `Inc` does NOT match inside `Incorporated`, while the 5-character
keyword `Shell` DOES match inside `Seashell`. -/
theorem C8_keyword_matching :
    (∀ (text : String) (tags : List Tag), text ≠ "" →
      match_tags_keyword text tags =
        tags.filterMap (fun tag =>
          if tag.match_method = "keyword" then
            (tag.keywords.find? (kwHits (pyLower text))).map (mkMatch tag)
          else none)) ∧
    (∀ (text : String) (tags : List Tag) (m : TagMatch),
      m ∈ match_tags_keyword text tags →
      m.confidence = 1 ∧ m.match_method = "keyword") ∧
    match_tags_keyword "Incorporated" [incTag] = [] ∧
    match_tags_keyword "Seashell" [shellTag] =
      [⟨2, "ShellTag", "custom", "Shell", 1, "keyword"⟩] := by
  refine ⟨?_, ?_, by decide, by decide⟩
  · intro text tags htext
    unfold match_tags_keyword
    rw [if_neg htext]
    have hfun : (fun tag : Tag =>
        if tag.match_method = "keyword" then
          matchKeywords tag (pyLower text) tag.keywords
        else none) =
        (fun tag : Tag =>
          if tag.match_method = "keyword" then
            (tag.keywords.find? (kwHits (pyLower text))).map (mkMatch tag)
          else none) := by
      funext tag
      by_cases hm : tag.match_method = "keyword"
      · rw [if_pos hm, if_pos hm, matchKeywords_eq_find]
      · rw [if_neg hm, if_neg hm]
    rw [hfun]
  · intro text tags m hm
    unfold match_tags_keyword at hm
    split_ifs at hm with ht
    · simp at hm
    · rw [List.mem_filterMap] at hm
      obtain ⟨tag, htag, hf⟩ := hm
      split_ifs at hf with hmm
      rw [matchKeywords_eq_find, Option.map_eq_some'] at hf
      obtain ⟨kw, hfind, hmk⟩ := hf
      subst hmk
      exact ⟨rfl, rfl⟩

/-- Witness for C8's characterization at a concrete text and catalog. -/
theorem C8_keyword_matching_witness :
    ("Seashell" : String) ≠ "" ∧
    match_tags_keyword "Seashell" [incTag, shellTag] =
      [incTag, shellTag].filterMap (fun tag =>
        if tag.match_method = "keyword" then
          (tag.keywords.find? (kwHits (pyLower "Seashell"))).map (mkMatch tag)
        else none) :=
  ⟨by decide, C8_keyword_matching.1 "Seashell" [incTag, shellTag] (by decide)⟩

/-- C10: a catalog keyword that is empty (or whitespace-only) after
lowercasing and trimming is skipped without error: matching a tag whose
keyword list starts with such a keyword is identical to matching the tag
without it, so the tag can still match on a later keyword; moreover no
emitted match ever records an empty-trimmed keyword.  Concretely, the tag
with keywords `["  ", "carbon"]` still matches `carbon`. -/
theorem C10_empty_keyword_skip :
    (∀ (text : String) (id : Nat) (name ttype mm kw : String)
       (rest : List String),
      kwEffective kw = "" →
      match_tags_keyword text [⟨id, name, ttype, kw :: rest, mm⟩] =
        match_tags_keyword text [⟨id, name, ttype, rest, mm⟩]) ∧
    (∀ (text : String) (tags : List Tag) (m : TagMatch),
      m ∈ match_tags_keyword text tags →
      kwEffective m.matched_keyword ≠ "") ∧
    match_tags_keyword "The carbon plant" [envTag] =
      [⟨3, "Environment", "esg", "carbon", 1, "keyword"⟩] := by
  refine ⟨?_, ?_, by decide⟩
  · intro text id name ttype mm kw rest he
    unfold match_tags_keyword
    by_cases ht : text = ""
    · rw [if_pos ht, if_pos ht]
    · rw [if_neg ht, if_neg ht]
      by_cases hmm : mm = "keyword"
      · subst hmm
        have h1 : matchKeywords ⟨id, name, ttype, kw :: rest, "keyword"⟩
              (pyLower text) (kw :: rest) =
            matchKeywords ⟨id, name, ttype, rest, "keyword"⟩ (pyLower text) rest := by
          rw [matchKeywords_eq_find, matchKeywords_eq_find,
            List.find?_cons_of_neg _ (by simp [kwHits, he])]
          cases List.find? (kwHits (pyLower text)) rest <;> rfl
        simp [List.filterMap_cons, List.filterMap_nil, h1]
      · simp [List.filterMap_cons, List.filterMap_nil, hmm]
  · intro text tags m hm
    unfold match_tags_keyword at hm
    split_ifs at hm with ht
    · simp at hm
    · rw [List.mem_filterMap] at hm
      obtain ⟨tag, htag, hf⟩ := hm
      split_ifs at hf with hmm
      rw [matchKeywords_eq_find, Option.map_eq_some'] at hf
      obtain ⟨kw, hfind, hmk⟩ := hf
      have hp : kwHits (pyLower text) kw = true := List.find?_some hfind
      subst hmk
      intro hcontra
      have hcontra2 : kwEffective kw = "" := hcontra
      simp [kwHits, hcontra2] at hp

/-- Witness for C10 at a concrete catalog: skipping the whitespace-only
keyword leaves the match result unchanged. -/
theorem C10_empty_keyword_skip_witness :
    kwEffective "  " = "" ∧
    match_tags_keyword "The carbon plant"
        [⟨3, "Environment", "esg", ["  ", "carbon"], "keyword"⟩] =
      match_tags_keyword "The carbon plant"
        [⟨3, "Environment", "esg", ["carbon"], "keyword"⟩] :=
  ⟨by decide,
    C10_empty_keyword_skip.1 "The carbon plant" 3 "Environment" "esg"
      "keyword" "  " ["carbon"] (by decide)⟩

end SentimentVision
